import Mathlib

/-!
Verification of the unified AI backend helper (`ai_helper.py`).

The Python module is shallowly embedded below.  Python chat-message dicts become
`Msg` (fields optional, since a dict may lack a key), JSON values produced by
`json.loads` become `Json`, and the network is an explicit input: each adapter
takes the transport outcome (HTTP status, the streamed lines together with their
parse results, or a raised exception) as a value.  Python's `in`, subscription
and `.get` on parsed JSON are modelled including the exceptions they raise,
because the adapters' `except` clauses catch only some exception classes and the
rest escape to the outer handler that yields an error fragment.  A generator is
modelled by the finite list of fragments it yields plus an `Outcome` recording
whether it finished its loop normally (`completed`) or returned through an
error path (`failed`).
-/

/-- Chat-message dict with optional `role` and `content` keys. -/
structure Msg where
  role : Option String
  content : Option String
deriving DecidableEq

/-- JSON value as returned by `json.loads`.  `obj` is a dict, its keys distinct. -/
inductive Json where
  | null
  | bool (b : Bool)
  | num (n : Int)
  | str (s : String)
  | arr (elems : List Json)
  | obj (fields : List (String × Json))

/-- Whether a generator finished its iteration normally or stopped on an error path. -/
inductive Outcome where
  | completed
  | failed
deriving DecidableEq

/-- Python exceptions that the embedded dict/list operations can raise. -/
inductive PyExc where
  | typeError (msg : String)
  | keyError
  | indexError
  | attributeError (msg : String)
deriving DecidableEq

/-- The Python type name of a JSON value, as it appears in exception messages. -/
def pyTypeName : Json → String
  | .null => "NoneType"
  | .bool _ => "bool"
  | .num _ => "int"
  | .str _ => "str"
  | .arr _ => "list"
  | .obj _ => "dict"

/-- `str(e)` for the exceptions that can reach the outer `except Exception` handler.
(`keyError` is always caught by the inner handlers before reaching it.) -/
def excMsg : PyExc → String
  | .typeError m => m
  | .attributeError m => m
  | .indexError => "list index out of range"
  | .keyError => "KeyError"

/-- Code-point lexicographic comparison of char lists (Python string comparison). -/
def charListLe : List Char → List Char → Bool
  | [], _ => true
  | _ :: _, [] => false
  | a :: as, b :: bs =>
    if a < b then true
    else if b < a then false
    else charListLe as bs

/-- Python `a <= b` on strings: lexicographic by code point. -/
def strLe (a b : String) : Bool := charListLe a.data b.data

/-- Is `pat` a contiguous sublist of the second argument? -/
def charListSub (pat : List Char) : List Char → Bool
  | [] => pat.isEmpty
  | c :: rest => pat.isPrefixOf (c :: rest) || charListSub pat rest

/-- Python `pat in hay` on strings: substring test. -/
def strContainsSub (hay pat : String) : Bool := charListSub pat.data hay.data

/-- Python truthiness of a JSON value. -/
def pyTruthy : Json → Bool
  | .null => false
  | .bool b => b
  | .num n => n != 0
  | .str s => s != ""
  | .arr es => !es.isEmpty
  | .obj fs => !fs.isEmpty

/-- Python `key in j`: key lookup for dicts, substring test for strings,
membership for lists, `TypeError` otherwise. -/
def pyContains (j : Json) (key : String) : Except PyExc Bool :=
  match j with
  | .obj fields => .ok (fields.any (fun f => f.1 == key))
  | .str s => .ok (strContainsSub s key)
  | .arr es => .ok (es.any (fun e => match e with | .str t => t == key | _ => false))
  | j' => .error (.typeError ("argument of type \x27" ++ pyTypeName j' ++ "\x27 is not iterable"))

/-- Python `j[key]` with a string key. -/
def pyIndexStr (j : Json) (key : String) : Except PyExc Json :=
  match j with
  | .obj fields =>
    match fields.find? (fun f => f.1 == key) with
    | some f => .ok f.2
    | none => .error .keyError
  | .str _ => .error (.typeError "string indices must be integers")
  | .arr _ => .error (.typeError "list indices must be integers or slices, not str")
  | j' => .error (.typeError ("\x27" ++ pyTypeName j' ++ "\x27 object is not subscriptable"))

/-- Python `j[0]`. -/
def pyIndexZero (j : Json) : Except PyExc Json :=
  match j with
  | .arr [] => .error .indexError
  | .arr (e :: _) => .ok e
  | .str s =>
    match s.data with
    | [] => .error .indexError
    | c :: _ => .ok (.str (String.mk [c]))
  | .obj _ => .error .keyError
  | j' => .error (.typeError ("\x27" ++ pyTypeName j' ++ "\x27 object is not subscriptable"))

/-- Python `j.get(key, dflt)`: defaulted dict lookup; `AttributeError` on non-dicts. -/
def pyGet (j : Json) (key : String) (dflt : Json) : Except PyExc Json :=
  match j with
  | .obj fields => .ok (((fields.find? (fun f => f.1 == key)).map (fun f => f.2)).getD dflt)
  | j' => .error (.attributeError ("\x27" ++ pyTypeName j' ++ "\x27 object has no attribute \x27get\x27"))

/-- One line of a streamed HTTP body, with the result `json.loads` would give for the
parsed portion (`none` models `json.JSONDecodeError`).  The parser is external library
code, so its verdict is part of the input. -/
structure RawLine where
  raw : String
  parsed : Option Json

/-- Configured endpoint of the local model server (env default). -/
def OLLAMA_HOST : String := "http://localhost:11434"

/-- Process-wide default local model name (env default). -/
def DEFAULT_MODEL : String := "llama3"

-- ========================
-- OLLAMA (Local)
-- ========================

/-- Message normalization done by `stream_ollama_response` before sending (lines 56-60):
if the system prompt is truthy and no turn has role "system", prepend one; otherwise
leave the input untouched. -/
def normalize_messages (messages : List Msg) (system_prompt : Option String) : List Msg :=
  match system_prompt with
  | none => messages
  | some sp =>
    if sp = "" then messages
    else if messages.any (fun m => m.role == some "system") then messages
    else ⟨some "system", some sp⟩ :: messages

/-- Body of the ollama streaming loop for one line (lines 79-87): skip falsy lines,
parse, and yield `chunk["message"]["content"]` when present.  `JSONDecodeError` and
`KeyError` are caught (`continue`); any other exception escapes with its message. -/
def ollamaStep (l : RawLine) : Except String (Option Json) :=
  if l.raw = "" then .ok none
  else
    match l.parsed with
    | none => .ok none
    | some chunk =>
      match pyContains chunk "message" with
      | .error .keyError => .ok none
      | .error e => .error (excMsg e)
      | .ok false => .ok none
      | .ok true =>
        match pyIndexStr chunk "message" with
        | .error .keyError => .ok none
        | .error e => .error (excMsg e)
        | .ok msgv =>
          match pyContains msgv "content" with
          | .error .keyError => .ok none
          | .error e => .error (excMsg e)
          | .ok false => .ok none
          | .ok true =>
            match pyIndexStr msgv "content" with
            | .error .keyError => .ok none
            | .error e => .error (excMsg e)
            | .ok c => .ok (some c)

/-- Run a per-line step over the streamed lines.  A step that escapes with an exception
is caught by the function-level handler, which yields one final error fragment; the
generator then ends on the failed path. -/
def sseLoop (step : RawLine → Except String (Option Json)) : List RawLine → List Json × Outcome
  | [] => ([], .completed)
  | l :: ls =>
    match step l with
    | .error m => ([.str ("Error: " ++ m)], .failed)
    | .ok none => sseLoop step ls
    | .ok (some c) =>
      let r := sseLoop step ls
      (c :: r.1, r.2)

/-- Transport outcome of the ollama chat POST, matching the handled exception classes:
a response (status, streamed lines, and optionally an exception raised by the line
iterator after the listed lines), a timeout, a connection error, or another exception. -/
inductive OllamaTransport where
  | resp (status : Nat) (lines : List RawLine) (iterExc : Option String)
  | timeout
  | connError
  | exc (msg : String)

/-- `stream_ollama_response` (lines 50-94): fragments yielded and how the generator
ended, as a function of the request inputs and the transport outcome. -/
def stream_ollama_response (messages : List Msg) (system_prompt : Option String)
    (t : OllamaTransport) : List Json × Outcome :=
  let _payload_messages := normalize_messages messages system_prompt
  match t with
  | .timeout => ([.str "Error: Request to Ollama timed out."], .failed)
  | .connError => ([.str ("Error: Could not connect to Ollama at " ++ OLLAMA_HOST ++ ".")], .failed)
  | .exc m => ([.str ("Error: " ++ m)], .failed)
  | .resp status lines iterExc =>
    if status ≠ 200 then
      ([.str ("Error: Ollama returned status code " ++ toString status)], .failed)
    else
      match sseLoop ollamaStep lines with
      | (fs, .completed) =>
        match iterExc with
        | none => (fs, .completed)
        | some m => (fs ++ [.str ("Error: " ++ m)], .failed)
      | r => r

-- ========================
-- Model directory: list_ollama_models
-- ========================

/-- Transport outcome of the `GET /api/tags` call: a response whose body either parses
as JSON (`some`) or makes `response.json()` raise (`none`), or a raised exception. -/
inductive TagsTransport where
  | resp (status : Nat) (body : Option Json)
  | exc (msg : String)

/-- Python `for model in models` over the `models` value: lists iterate elements,
strings iterate one-character strings, dicts iterate their keys; anything else
raises `TypeError` (`none`). -/
def iterItems : Json → Option (List Json)
  | .arr es => some es
  | .str s => some (s.data.map (fun c => Json.str (String.mk [c])))
  | .obj fields => some (fields.map (fun f => Json.str f.1))
  | _ => none

/-- The name-collection loop of `list_ollama_models` (lines 39-43): dict entries
contribute their "name" value, string entries contribute themselves, others are
skipped. -/
def extractNames : List Json → List Json
  | [] => []
  | m :: ms =>
    match m with
    | .obj fields =>
      match fields.find? (fun f => f.1 == "name") with
      | some f => f.2 :: extractNames ms
      | none => extractNames ms
    | .str s => .str s :: extractNames ms
    | _ => extractNames ms

/-- The numeric sort key Python uses when comparing bools with ints. -/
def numKey : Json → Option Int
  | .num n => some n
  | .bool b => some (if b then 1 else 0)
  | _ => none

/-- Value of a string JSON node. -/
def asStr : Json → Option String
  | .str s => some s
  | _ => none

/-- Builtin `sorted` on the collected name list: at most one element needs no
comparison; homogeneous strings sort lexicographically by code point; numbers and
bools sort by numeric value (stably); any other mix raises `TypeError` (`none`). -/
def pySorted (l : List Json) : Option (List Json) :=
  if l.length ≤ 1 then some l
  else
    match l.mapM asStr with
    | some strs => some ((List.insertionSort (fun a b => strLe a b = true) strs).map Json.str)
    | none =>
      if l.all (fun j => (numKey j).isSome) then
        some (List.insertionSort (fun a b => (numKey a).getD 0 ≤ (numKey b).getD 0) l)
      else none

/-- `list_ollama_models` (lines 31-47): collect the model names from the tags
response and return them sorted; any failure (exception, non-200 status, body that
fails to parse, wrongly-shaped body, or a `TypeError` from `sorted`) gives `[]`. -/
def list_ollama_models (t : TagsTransport) : List Json :=
  match t with
  | .exc _ => []
  | .resp status body =>
    if status = 200 then
      match body with
      | none => []
      | some data =>
        match data with
        | .obj fields =>
          let models := ((fields.find? (fun f => f.1 == "models")).map (fun f => f.2)).getD (.arr [])
          match iterItems models with
          | none => []
          | some items =>
            match extractNames items with
            | [] => []
            | names =>
              match pySorted names with
              | some out => out
              | none => []
        | _ => []
    else []

-- ========================
-- CLAUDE (Anthropic)
-- ========================

/-- Outcome of an SDK-driven stream: the import of the SDK failed, or the stream ran,
producing chunks of type α and possibly ending in a raised exception. -/
inductive SdkRun (α : Type) where
  | importError
  | run (chunks : List α) (exc : Option String)

/-- The dedicated system text of the Claude request (line 156):
`system_prompt or "You are a helpful assistant."`. -/
def claude_system_content (system_prompt : Option String) : String :=
  match system_prompt with
  | none => "You are a helpful assistant."
  | some sp => if sp = "" then "You are a helpful assistant." else sp

/-- The outgoing message list of the Claude request (lines 159-165): every input turn
whose role is not "system", re-packed with defaults `role="user"`, `content=""`. -/
def claude_api_messages (messages : List Msg) : List Msg :=
  (messages.filter (fun m => !(m.role == some "system"))).map
    (fun m => ⟨some (m.role.getD "user"), some (m.content.getD "")⟩)

/-- `stream_claude_response` (lines 143-180): the SDK yields text deltas directly;
any exception becomes one final error fragment. -/
def stream_claude_response (messages : List Msg) (_api_key : String)
    (system_prompt : Option String) (sdk : SdkRun String) : List Json × Outcome :=
  let _system_field := claude_system_content system_prompt
  let _payload_messages := claude_api_messages messages
  match sdk with
  | .importError =>
    ([.str "Error: anthropic library not installed. Install with: pip install anthropic"], .failed)
  | .run texts exc =>
    match exc with
    | none => (texts.map Json.str, .completed)
    | some m => (texts.map Json.str ++ [.str ("Error: " ++ m)], .failed)

-- ========================
-- CHATGPT (OpenAI)
-- ========================

/-- The outgoing message list of the ChatGPT request (lines 200-212): a synthesized
leading system message when the prompt is truthy, then every non-system input turn. -/
def chatgpt_api_messages (messages : List Msg) (system_prompt : Option String) : List Msg :=
  (match system_prompt with
   | none => []
   | some sp => if sp = "" then [] else [⟨some "system", some sp⟩])
  ++ claude_api_messages messages

/-- `stream_chatgpt_response` (lines 187-228): each SDK chunk carries
`choices[0].delta.content` (`none` for a null delta); only truthy contents are
yielded.  Any exception becomes one final error fragment. -/
def stream_chatgpt_response (messages : List Msg) (_api_key : String)
    (system_prompt : Option String) (sdk : SdkRun (Option String)) : List Json × Outcome :=
  let _payload_messages := chatgpt_api_messages messages system_prompt
  match sdk with
  | .importError =>
    ([.str "Error: openai library not installed. Install with: pip install openai"], .failed)
  | .run chunks exc =>
    let fs := chunks.filterMap (fun c =>
      match c with
      | some s => if s = "" then none else some (Json.str s)
      | none => none)
    match exc with
    | none => (fs, .completed)
    | some m => (fs ++ [.str ("Error: " ++ m)], .failed)

-- ========================
-- GROK (xAI)
-- ========================

/-- The outgoing message list of the Grok request (lines 244-256): same shape as the
ChatGPT one. -/
def grok_api_messages (messages : List Msg) (system_prompt : Option String) : List Msg :=
  (match system_prompt with
   | none => []
   | some sp => if sp = "" then [] else [⟨some "system", some sp⟩])
  ++ claude_api_messages messages

/-- Body of the Grok SSE loop for one line (lines 282-292): only lines starting with
"data: " are parsed (their `parsed` field is the verdict on the part after the
prefix); the fragment is the delta content of the first choice when the chain succeeds.
`JSONDecodeError`, `KeyError` and `ValueError` are caught; any other exception
escapes with its message. -/
def grokStep (l : RawLine) : Except String (Option Json) :=
  if l.raw = "" then .ok none
  else if !("data: ".data.isPrefixOf l.raw.data) then .ok none
  else
    match l.parsed with
    | none => .ok none
    | some data =>
      match pyContains data "choices" with
      | .error .keyError => .ok none
      | .error e => .error (excMsg e)
      | .ok false => .ok none
      | .ok true =>
        match pyIndexStr data "choices" with
        | .error .keyError => .ok none
        | .error e => .error (excMsg e)
        | .ok choices =>
          if !pyTruthy choices then .ok none
          else
            match pyIndexZero choices with
            | .error .keyError => .ok none
            | .error e => .error (excMsg e)
            | .ok c0 =>
              match pyGet c0 "delta" (.obj []) with
              | .error .keyError => .ok none
              | .error e => .error (excMsg e)
              | .ok delta =>
                match pyContains delta "content" with
                | .error .keyError => .ok none
                | .error e => .error (excMsg e)
                | .ok false => .ok none
                | .ok true =>
                  match pyIndexStr delta "content" with
                  | .error .keyError => .ok none
                  | .error e => .error (excMsg e)
                  | .ok c => .ok (some c)

/-- Transport outcome of the Grok chat POST: a response (status, lines, optional
iterator exception) or a raised exception. -/
inductive HttpTransport where
  | resp (status : Nat) (lines : List RawLine) (iterExc : Option String)
  | exc (msg : String)

/-- `stream_grok_response` (lines 235-295). -/
def stream_grok_response (messages : List Msg) (_api_key : String)
    (system_prompt : Option String) (t : HttpTransport) : List Json × Outcome :=
  let _payload_messages := grok_api_messages messages system_prompt
  match t with
  | .exc m => ([.str ("Error: " ++ m)], .failed)
  | .resp status lines iterExc =>
    if status ≠ 200 then
      ([.str ("Error: xAI API returned status " ++ toString status)], .failed)
    else
      match sseLoop grokStep lines with
      | (fs, .completed) =>
        match iterExc with
        | none => (fs, .completed)
        | some m => (fs ++ [.str ("Error: " ++ m)], .failed)
      | r => r

-- ========================
-- UNIFIED INTERFACE
-- ========================

/-- The adapter-side inputs of one `generate_response` call: what each backend's
transport or SDK would deliver if that adapter were invoked. -/
structure Net where
  ollama : OllamaTransport
  claude : SdkRun String
  chatgpt : SdkRun (Option String)
  grok : HttpTransport

/-- `generate_response` (lines 302-344): dispatch on the backend key; for the three
cloud backends a falsy api_key yields one error fragment and returns before the
adapter is reached. -/
def generate_response (messages : List Msg) (backend : String) (_model : Option String)
    (system_prompt : Option String) (api_key : Option String) (net : Net) : List Json × Outcome :=
  if backend = "ollama" then
    stream_ollama_response messages system_prompt net.ollama
  else if backend = "claude" then
    if api_key.getD "" = "" then ([.str "Error: Claude API key not provided."], .failed)
    else stream_claude_response messages (api_key.getD "") system_prompt net.claude
  else if backend = "chatgpt" then
    if api_key.getD "" = "" then ([.str "Error: ChatGPT API key not provided."], .failed)
    else stream_chatgpt_response messages (api_key.getD "") system_prompt net.chatgpt
  else if backend = "grok" then
    if api_key.getD "" = "" then ([.str "Error: Grok API key not provided."], .failed)
    else stream_grok_response messages (api_key.getD "") system_prompt net.grok
  else
    ([.str ("Error: Unknown backend \x27" ++ backend ++
      "\x27. Use \x27ollama\x27, \x27claude\x27, \x27chatgpt\x27, or \x27grok\x27.")], .failed)

/-- `get_available_backends` (lines 347-377), with the connectivity probe's outcome
passed in as `ollama_up`. -/
def get_available_backends (claude_key grok_key openai_key : Bool) (ollama_up : Bool) : List String :=
  let backends :=
    (if ollama_up then ["Ollama (Local)"] else [])
    ++ (if claude_key then ["Claude (Anthropic)"] else [])
    ++ (if openai_key then ["ChatGPT (OpenAI)"] else [])
    ++ (if grok_key then ["Grok (xAI)"] else [])
  if backends = [] then ["Ollama (Local)"] else backends

/-- `backend_to_key` (lines 380-388): static table lookup with default "ollama". -/
def backend_to_key (backend : String) : String :=
  if backend = "Ollama (Local)" then "ollama"
  else if backend = "Claude (Anthropic)" then "claude"
  else if backend = "ChatGPT (OpenAI)" then "chatgpt"
  else if backend = "Grok (xAI)" then "grok"
  else "ollama"

-- ========================
-- Shared lemmas
-- ========================

theorem any_of_find?_none {α : Type} {p : α → Bool} {l : List α}
    (h : l.find? p = none) : l.any p = false := by
  rw [List.find?_eq_none] at h
  rw [List.any_eq_false]
  exact h

theorem any_of_find?_some {α : Type} {p : α → Bool} {l : List α} {a : α}
    (h : l.find? p = some a) : l.any p = true :=
  List.any_eq_true.mpr ⟨a, List.mem_of_find?_eq_some h, List.find?_some h⟩

theorem err_frag_ne_empty (m : String) : ("Error: " ++ m) ≠ "" := by
  intro h
  have h2 := congrArg String.length h
  rw [String.length_append] at h2
  have e1 : "Error: ".length = 7 := rfl
  have e2 : "".length = 0 := rfl
  rw [e1, e2] at h2
  omega

-- ========================
-- Claim theorems
-- ========================

/-- Claim C7: the message normalization used by the local (ollama) adapter is
idempotent — normalizing an already-normalized turn list with the same system prompt
returns it unchanged. -/
theorem C7_normalize_idempotent (messages : List Msg) (sp : Option String) :
    normalize_messages (normalize_messages messages sp) sp = normalize_messages messages sp := by
  match sp with
  | none => rfl
  | some s =>
    by_cases hs : s = ""
    · simp [normalize_messages, hs]
    · by_cases ha : messages.any (fun m => m.role == some "system")
      · simp [normalize_messages, hs, ha]
      · simp [normalize_messages, hs, ha, List.any_cons]

/-- Claim C8: the availability resolver never returns an empty list, and with all
credential flags false and a failing local probe the result is exactly the local
backend label. -/
theorem C8_available_backends_nonempty (ck gk opk up : Bool) :
    get_available_backends ck gk opk up ≠ []
    ∧ (ck = false → gk = false → opk = false → up = false →
        get_available_backends ck gk opk up = ["Ollama (Local)"]) := by
  revert ck gk opk up
  decide

theorem C8_available_backends_nonempty_witness :
    get_available_backends false false false false ≠ []
    ∧ get_available_backends false false false false = ["Ollama (Local)"] :=
  ⟨(C8_available_backends_nonempty false false false false).1,
   (C8_available_backends_nonempty false false false false).2 rfl rfl rfl rfl⟩

/-- The four valid backend keys. -/
def backendKeys : List String := ["ollama", "claude", "chatgpt", "grok"]

/-- The display labels in the static table of `backend_to_key`. -/
def backendLabels : List String :=
  ["Ollama (Local)", "Claude (Anthropic)", "ChatGPT (OpenAI)", "Grok (xAI)"]

/-- Claim C9: `backend_to_key` is total — every label maps to one of the four valid
backend keys, and every label outside the static table maps to "ollama". -/
theorem C9_backend_to_key_total (label : String) :
    backend_to_key label ∈ backendKeys
    ∧ (label ∉ backendLabels → backend_to_key label = "ollama") := by
  by_cases h1 : label = "Ollama (Local)"
  · subst h1; exact ⟨by decide, fun hn => absurd (by decide) hn⟩
  · by_cases h2 : label = "Claude (Anthropic)"
    · subst h2; exact ⟨by decide, fun hn => absurd (by decide) hn⟩
    · by_cases h3 : label = "ChatGPT (OpenAI)"
      · subst h3; exact ⟨by decide, fun hn => absurd (by decide) hn⟩
      · by_cases h4 : label = "Grok (xAI)"
        · subst h4; exact ⟨by decide, fun hn => absurd (by decide) hn⟩
        · have hb : backend_to_key label = "ollama" := by
            simp [backend_to_key, h1, h2, h3, h4]
          exact ⟨by rw [hb]; decide, fun _ => hb⟩

theorem C9_backend_to_key_total_witness :
    backend_to_key "no such label" ∈ backendKeys
    ∧ backend_to_key "no such label" = "ollama" :=
  ⟨(C9_backend_to_key_total "no such label").1,
   (C9_backend_to_key_total "no such label").2 (by decide)⟩

/-- Claim C1: for each cloud backend key, `generate_response` with an absent or empty
api_key yields exactly one fragment stating the missing credential and terminates.
The adapter inputs `net` are universally quantified and absent from the result, so no
adapter is invoked and no network I/O can influence or be caused by the call. -/
theorem C1_missing_key_single_fragment (messages : List Msg)
    (model system_prompt api_key : Option String) (net : Net)
    (hkey : api_key = none ∨ api_key = some "") :
    generate_response messages "claude" model system_prompt api_key net
      = ([.str "Error: Claude API key not provided."], .failed)
    ∧ generate_response messages "chatgpt" model system_prompt api_key net
      = ([.str "Error: ChatGPT API key not provided."], .failed)
    ∧ generate_response messages "grok" model system_prompt api_key net
      = ([.str "Error: Grok API key not provided."], .failed) := by
  rcases hkey with h | h <;> subst h <;> exact ⟨rfl, rfl, rfl⟩

/-- A concrete adapter-input bundle used by witnesses. -/
def netEx : Net := ⟨.resp 200 [] none, .run [] none, .run [] none, .resp 200 [] none⟩

theorem C1_missing_key_single_fragment_witness :
    generate_response [] "claude" none none none netEx
      = ([.str "Error: Claude API key not provided."], .failed) :=
  (C1_missing_key_single_fragment [] none none none netEx (Or.inl rfl)).1

/-- Claim C3: a non-200 HTTP status makes each HTTP-based adapter (local ollama and
Grok) yield exactly one fragment, containing the status code, and end on the failed
path — never the completed one — whatever the body lines would have held. -/
theorem C3_non200_single_fragment (status : Nat) (h : status ≠ 200) (messages : List Msg)
    (key : String) (sp : Option String) (lines : List RawLine) (iterExc : Option String) :
    stream_ollama_response messages sp (.resp status lines iterExc)
      = ([.str ("Error: Ollama returned status code " ++ toString status)], .failed)
    ∧ stream_grok_response messages key sp (.resp status lines iterExc)
      = ([.str ("Error: xAI API returned status " ++ toString status)], .failed)
    ∧ (∃ pre post, "Error: Ollama returned status code " ++ toString status
        = pre ++ toString status ++ post)
    ∧ (∃ pre post, "Error: xAI API returned status " ++ toString status
        = pre ++ toString status ++ post) := by
  refine ⟨?_, ?_, ⟨"Error: Ollama returned status code ", "", by simp⟩,
    ⟨"Error: xAI API returned status ", "", by simp⟩⟩
  · simp [stream_ollama_response, h]
  · simp [stream_grok_response, h]

theorem C3_non200_single_fragment_witness :
    stream_ollama_response [] none (.resp 404 [] none)
      = ([.str ("Error: Ollama returned status code " ++ toString 404)], .failed)
    ∧ stream_grok_response [] "k" none (.resp 404 [] none)
      = ([.str ("Error: xAI API returned status " ++ toString 404)], .failed) := by
  have h := C3_non200_single_fragment 404 (by decide) [] "k" none [] none
  exact ⟨h.1, h.2.1⟩

/-- No message built by the claude-style filter-and-repack carries the system role. -/
theorem claude_api_messages_no_system (messages : List Msg) :
    ∀ m ∈ claude_api_messages messages, m.role ≠ some "system" := by
  intro m hm
  rw [claude_api_messages, List.mem_map] at hm
  obtain ⟨m0, hm0, rfl⟩ := hm
  rw [List.mem_filter] at hm0
  have hrole : ¬ m0.role = some "system" := by
    have := hm0.2
    simp at this
    exact this
  cases hr : m0.role with
  | none => simp [hr]
  | some r =>
    simp [hr]
    intro hc
    exact hrole (by rw [hr, hc])

/-- Claim C10: with an absent or empty system prompt, the Claude request's dedicated
system field is the fixed text "You are a helpful assistant.", while the other three
adapters send no synthesized system turn at all in that case: the ChatGPT and Grok
outgoing lists contain no system-role message, and the ollama normalization leaves the
input list unchanged. -/
theorem C10_claude_default_system (messages : List Msg) (sp : Option String)
    (h : sp = none ∨ sp = some "") :
    claude_system_content sp = "You are a helpful assistant."
    ∧ (∀ m ∈ chatgpt_api_messages messages sp, m.role ≠ some "system")
    ∧ (∀ m ∈ grok_api_messages messages sp, m.role ≠ some "system")
    ∧ normalize_messages messages sp = messages := by
  have key := claude_api_messages_no_system messages
  rcases h with h | h <;> subst h
  · exact ⟨rfl, by simpa [chatgpt_api_messages] using key,
      by simpa [grok_api_messages] using key, rfl⟩
  · exact ⟨rfl, by simpa [chatgpt_api_messages] using key,
      by simpa [grok_api_messages] using key, rfl⟩

theorem C10_claude_default_system_witness :
    claude_system_content none = "You are a helpful assistant."
    ∧ (∀ m ∈ chatgpt_api_messages [⟨some "user", some "hi"⟩] none, m.role ≠ some "system")
    ∧ (∀ m ∈ grok_api_messages [⟨some "user", some "hi"⟩] none, m.role ≠ some "system")
    ∧ normalize_messages [⟨some "user", some "hi"⟩] none = [⟨some "user", some "hi"⟩] :=
  C10_claude_default_system [⟨some "user", some "hi"⟩] none (Or.inl rfl)

/-- The four backend adapters. -/
inductive Backend where
  | ollama
  | claude
  | chatgpt
  | grok
deriving DecidableEq

/-- The outgoing request one adapter builds: its dedicated system field (only the
Claude request carries one — the SDK call's `system=` argument) and the message list
it sends. -/
structure OutRequest where
  systemField : Option String
  msgs : List Msg

/-- The request each adapter builds from the same source turns and system prompt. -/
def buildRequest (b : Backend) (messages : List Msg) (sp : Option String) : OutRequest :=
  match b with
  | .ollama => ⟨none, normalize_messages messages sp⟩
  | .claude => ⟨some (claude_system_content sp), claude_api_messages messages⟩
  | .chatgpt => ⟨none, chatgpt_api_messages messages sp⟩
  | .grok => ⟨none, grok_api_messages messages sp⟩

/-- All four adapters, in source order. -/
def allBackends : List Backend := [.ollama, .claude, .chatgpt, .grok]

/-- Probe: does the adapter drop a pre-existing system turn from the input list? -/
def removesInputSystem (b : Backend) : Bool :=
  !((buildRequest b [⟨some "system", some "prior instructions"⟩] (some "p")).msgs.any
    (fun m => m.content == some "prior instructions"))

/-- Probe: does the adapter resend the system prompt through a dedicated request
field? -/
def usesDedicatedSystemField (b : Backend) : Bool :=
  (buildRequest b [] (some "p")).systemField.isSome

/-- Claim C6 as stated is false: the number of adapters that both extract input
system-role turns and resend the system prompt through a dedicated request field is
one (Claude alone), not two — ChatGPT and Grok also extract system turns but resend
the prompt as an in-list message, not a dedicated field. -/
theorem C6_counterexample :
    ¬ (allBackends.filter
        (fun b => removesInputSystem b && usesDedicatedSystemField b)).length = 2 := by
  decide

/-- Claim C6 amended: three of the four adapters (Claude, ChatGPT, Grok) extract
existing system-role turns out of the input list; of these, only Claude resends the
system prompt through a dedicated request field, while ChatGPT and Grok resend it as a
synthesized leading in-list system message; the local adapter alone leaves input
system turns inline. -/
theorem C6_amended (messages : List Msg) (sp : Option String) (s : String)
    (hsp : sp = some s) (hne : s ≠ "") :
    allBackends.filter removesInputSystem = [.claude, .chatgpt, .grok]
    ∧ allBackends.filter usesDedicatedSystemField = [.claude]
    ∧ (∀ m ∈ claude_api_messages messages, m.role ≠ some "system")
    ∧ chatgpt_api_messages messages sp = ⟨some "system", some s⟩ :: claude_api_messages messages
    ∧ grok_api_messages messages sp = ⟨some "system", some s⟩ :: claude_api_messages messages
    ∧ (buildRequest .claude messages sp).systemField = some s
    ∧ (∀ m ∈ messages, m ∈ (buildRequest .ollama messages sp).msgs) := by
  subst hsp
  refine ⟨by decide, by decide, claude_api_messages_no_system messages,
    by simp [chatgpt_api_messages, hne], by simp [grok_api_messages, hne],
    by simp [buildRequest, claude_system_content, hne], ?_⟩
  intro m hm
  simp only [buildRequest, normalize_messages]
  by_cases h0 : messages.any (fun m => m.role == some "system")
  · simp [hne, h0, hm]
  · simp [hne, h0, hm]

theorem C6_amended_witness :
    allBackends.filter removesInputSystem = [.claude, .chatgpt, .grok]
    ∧ allBackends.filter usesDedicatedSystemField = [.claude]
    ∧ chatgpt_api_messages [⟨some "user", some "hi"⟩] (some "p")
        = ⟨some "system", some "p"⟩ :: claude_api_messages [⟨some "user", some "hi"⟩] := by
  have h := C6_amended [⟨some "user", some "hi"⟩] (some "p") "p" rfl (by decide)
  exact ⟨h.1, h.2.1, h.2.2.2.1⟩

/-- A final ollama chunk whose content delta is empty, as the real server sends when
generation is done. -/
def ollamaEmptyLine : RawLine :=
  ⟨"\x7b\"message\":\x7b\"content\":\"\"\x7d,\"done\":true\x7d",
   some (.obj [("message", .obj [("content", .str "")]), ("done", .bool true)])⟩

/-- An SSE line whose delta content is the empty string. -/
def grokEmptyLine : RawLine :=
  ⟨"data: \x7b\"choices\":[\x7b\"delta\":\x7b\"content\":\"\"\x7d\x7d]\x7d",
   some (.obj [("choices", .arr [.obj [("delta", .obj [("content", .str "")])]])])⟩

/-- Claim C4 as stated is false: on a 200 response whose chunk carries an empty
content delta, the local adapter yields the empty string as a fragment, and so does
the Grok adapter — neither guards for emptiness. -/
theorem C4_counterexample :
    (stream_ollama_response [] none (.resp 200 [ollamaEmptyLine] none)).1 = [.str ""]
    ∧ (stream_grok_response [] "k" none (.resp 200 [grokEmptyLine] none)).1 = [.str ""] :=
  ⟨rfl, rfl⟩

/-- Claim C4 amended: the ChatGPT adapter never yields the empty string (its truthiness
guard drops empty and null deltas) and every sentinel error fragment is non-empty, but
the Ollama and Grok adapters forward content deltas unchecked and do yield the empty
string when the delta is empty. -/
theorem C4_amended (messages : List Msg) (key : String) (sp : Option String)
    (chunks : List (Option String)) (exc : Option String) :
    Json.str "" ∉ (stream_chatgpt_response messages key sp (.run chunks exc)).1
    ∧ (stream_ollama_response [] none (.resp 200 [ollamaEmptyLine] none)).1 = [.str ""]
    ∧ (stream_grok_response [] "k" none (.resp 200 [grokEmptyLine] none)).1 = [.str ""] := by
  refine ⟨?_, rfl, rfl⟩
  intro hmem
  cases exc with
  | none =>
    simp only [stream_chatgpt_response] at hmem
    rw [List.mem_filterMap] at hmem
    obtain ⟨c, _, hc⟩ := hmem
    match c with
    | none => simp at hc
    | some s =>
      by_cases hs : s = ""
      · simp [hs] at hc
      · simp [hs] at hc
  | some m =>
    simp only [stream_chatgpt_response] at hmem
    rw [List.mem_append] at hmem
    rcases hmem with hmem | hmem
    · rw [List.mem_filterMap] at hmem
      obtain ⟨c, _, hc⟩ := hmem
      match c with
      | none => simp at hc
      | some s =>
        by_cases hs : s = ""
        · simp [hs] at hc
        · simp [hs] at hc
    · rw [List.mem_singleton] at hmem
      have : "" = "Error: " ++ m := by
        injection hmem
      exact err_frag_ne_empty m this.symm

theorem charListLe_cons_iff {a b : Char} {as bs : List Char} :
    charListLe (a :: as) (b :: bs) = true ↔ a < b ∨ (a = b ∧ charListLe as bs = true) := by
  show (if a < b then true else if b < a then false else charListLe as bs) = true ↔ _
  by_cases h1 : a < b
  · simp [h1]
  · by_cases h2 : b < a
    · rw [if_neg h1, if_pos h2]
      constructor
      · intro h
        exact absurd h (by decide)
      · rintro (h | ⟨rfl, _⟩)
        · exact absurd h h1
        · exact absurd h2 (lt_irrefl a)
    · have hab : a = b := le_antisymm (not_lt.mp h2) (not_lt.mp h1)
      rw [if_neg h1, if_neg h2]
      simp [hab]

theorem charListLe_total : ∀ (a b : List Char), charListLe a b = true ∨ charListLe b a = true
  | [], _ => Or.inl rfl
  | _ :: _, [] => Or.inr rfl
  | a :: as, b :: bs => by
    rcases lt_trichotomy a b with h | h | h
    · exact Or.inl (charListLe_cons_iff.mpr (Or.inl h))
    · rcases charListLe_total as bs with ih | ih
      · exact Or.inl (charListLe_cons_iff.mpr (Or.inr ⟨h, ih⟩))
      · exact Or.inr (charListLe_cons_iff.mpr (Or.inr ⟨h.symm, ih⟩))
    · exact Or.inr (charListLe_cons_iff.mpr (Or.inl h))

theorem charListLe_trans : ∀ {a b c : List Char},
    charListLe a b = true → charListLe b c = true → charListLe a c = true
  | [], _, _, _, _ => rfl
  | _ :: _, [], _, h1, _ => by simp [charListLe] at h1
  | _ :: _, _ :: _, [], _, h2 => by simp [charListLe] at h2
  | a :: as, b :: bs, c :: cs, h1, h2 => by
    rcases charListLe_cons_iff.mp h1 with hab | ⟨hab, h1'⟩
    · rcases charListLe_cons_iff.mp h2 with hbc | ⟨hbc, _⟩
      · exact charListLe_cons_iff.mpr (Or.inl (lt_trans hab hbc))
      · exact charListLe_cons_iff.mpr (Or.inl (hbc ▸ hab))
    · rcases charListLe_cons_iff.mp h2 with hbc | ⟨hbc, h2'⟩
      · exact charListLe_cons_iff.mpr (Or.inl (hab.symm ▸ hbc))
      · exact charListLe_cons_iff.mpr (Or.inr ⟨hab.trans hbc, charListLe_trans h1' h2'⟩)

instance : IsTotal String (fun a b => strLe a b = true) :=
  ⟨fun a b => charListLe_total a.data b.data⟩

instance : IsTrans String (fun a b => strLe a b = true) :=
  ⟨fun _ _ _ h1 h2 => charListLe_trans h1 h2⟩

theorem extractNames_mk (names : List String) :
    extractNames (names.map (fun n => Json.obj [("name", Json.str n)])) = names.map Json.str := by
  induction names with
  | nil => rfl
  | cons n ns ih => simp [extractNames, List.find?, ih]

theorem mapM_asStr_map (names : List String) :
    (names.map Json.str).mapM asStr = some names := by
  induction names with
  | nil => rfl
  | cons n ns ih =>
    rw [List.map_cons, List.mapM_cons, ih]
    rfl

theorem filterMap_asStr_map_str (l : List String) :
    (l.map Json.str).filterMap asStr = l := by
  induction l with
  | nil => rfl
  | cons s t ih => simp [List.filterMap_cons, asStr, ih]

/-- A tags-response body listing models by the given names, in the wire shape the
server uses. -/
def mkTagsBody (names : List String) : Json :=
  .obj [("models", .arr (names.map (fun n => .obj [("name", .str n)])))]

theorem list_ollama_models_mk (names : List String) :
    list_ollama_models (.resp 200 (some (mkTagsBody names)))
      = (List.insertionSort (fun a b => strLe a b = true) names).map Json.str := by
  cases names with
  | nil => rfl
  | cons n1 ns =>
    cases ns with
    | nil => rfl
    | cons n2 rest =>
      have h1 : list_ollama_models (.resp 200 (some (mkTagsBody (n1 :: n2 :: rest))))
          = (match extractNames ((n1 :: n2 :: rest).map
              (fun n => Json.obj [("name", Json.str n)])) with
             | [] => ([] : List Json)
             | names =>
               match pySorted names with
               | some out => out
               | none => []) := rfl
      have hlen : ¬ (((n1 :: n2 :: rest).map Json.str).length ≤ 1) := by
        intro h
        rw [List.length_map, List.length_cons, List.length_cons] at h
        omega
      have h2 : pySorted ((n1 :: n2 :: rest).map Json.str)
          = some ((List.insertionSort (fun a b => strLe a b = true)
              (n1 :: n2 :: rest)).map Json.str) := by
        unfold pySorted
        rw [if_neg hlen, mapM_asStr_map]
      rw [h1, extractNames_mk, List.map_cons, List.map_cons]
      show (match pySorted (Json.str n1 :: Json.str n2 :: rest.map Json.str) with
            | some out => out
            | none => ([] : List Json)) = _
      rw [← List.map_cons, ← List.map_cons, h2]

/-- Claim C5 as stated is false: names are not deduplicated — a tags response naming
"a" twice yields a sorted list in which "a" appears twice. -/
theorem C5_counterexample :
    list_ollama_models (.resp 200 (some (mkTagsBody ["b", "a", "a"])))
      = [.str "a", .str "a", .str "b"]
    ∧ list_ollama_models (.resp 200 (some (mkTagsBody ["b", "a", "a"])))
      ≠ [.str "a", .str "b"] := by
  have h : list_ollama_models (.resp 200 (some (mkTagsBody ["b", "a", "a"])))
      = [.str "a", .str "a", .str "b"] := rfl
  refine ⟨h, ?_⟩
  rw [h]
  intro he
  have hlen := congrArg List.length he
  simp at hlen

/-- Claim C5 amended: the returned list is the extracted model names sorted (a sorted
permutation with duplicates preserved, not a deduplicated set), and any failure — a
raised exception or a non-200 status — yields the empty list rather than an error. -/
theorem C5_amended (names : List String) (status : Nat) (hst : status ≠ 200)
    (body : Option Json) (m : String) :
    list_ollama_models (.resp 200 (some (mkTagsBody names)))
      = (List.insertionSort (fun a b => strLe a b = true) names).map Json.str
    ∧ (list_ollama_models (.resp 200 (some (mkTagsBody names)))).Perm (names.map Json.str)
    ∧ List.Sorted (fun a b => strLe a b = true)
        ((list_ollama_models (.resp 200 (some (mkTagsBody names)))).filterMap asStr)
    ∧ list_ollama_models (.exc m) = []
    ∧ list_ollama_models (.resp status body) = [] := by
  have h1 := list_ollama_models_mk names
  refine ⟨h1, ?_, ?_, rfl, ?_⟩
  · rw [h1]
    exact (List.perm_insertionSort _ names).map Json.str
  · rw [h1, filterMap_asStr_map_str]
    exact List.sorted_insertionSort _ names
  · simp [list_ollama_models, hst]

theorem C5_amended_witness :
    list_ollama_models (.resp 200 (some (mkTagsBody ["m2", "m1"])))
      = (List.insertionSort (fun a b => strLe a b = true) ["m2", "m1"]).map Json.str
    ∧ list_ollama_models (.exc "boom") = []
    ∧ list_ollama_models (.resp 500 none) = [] := by
  have h := C5_amended ["m2", "m1"] 500 (by decide) none "boom"
  exact ⟨h.1, h.2.2.2.1, h.2.2.2.2⟩

/-- Modelled from the spec claim (C2): the message.content value of a line that is
non-empty and parses as a JSON object containing a message.content field; nothing
otherwise. -/
def specLineContent (l : RawLine) : Option Json :=
  if l.raw = "" then none
  else
    match l.parsed with
    | some (Json.obj fields) =>
      match (fields.find? (fun f => f.1 == "message")).map (fun f => f.2) with
      | some (Json.obj mf) => (mf.find? (fun f => f.1 == "content")).map (fun f => f.2)
      | _ => none
    | _ => none

/-- The fragment sequence the C2 claim predicts for a list of streamed lines. -/
def specContentValues (lines : List RawLine) : List Json :=
  lines.filterMap specLineContent

/-- Lines on which the ollama loop body cannot raise an escaping exception: empty,
non-JSON, or a JSON object whose message value (when the key is present) is itself an
object. -/
def lineSafe (l : RawLine) : Bool :=
  l.raw == "" ||
  (match l.parsed with
   | none => true
   | some (Json.obj fields) =>
     (match (fields.find? (fun f => f.1 == "message")).map (fun f => f.2) with
      | none => true
      | some (Json.obj _) => true
      | some _ => false)
   | some _ => false)

theorem ollamaStep_safe (l : RawLine) (h : lineSafe l = true) :
    ollamaStep l = .ok (specLineContent l) := by
  unfold lineSafe at h
  unfold ollamaStep specLineContent
  by_cases hr : l.raw = ""
  · rw [if_pos hr, if_pos hr]
  · rw [if_neg hr, if_neg hr]
    rw [Bool.or_eq_true] at h
    rcases h with h | h
    · exact absurd (by simpa using h) hr
    · cases hp : l.parsed with
      | none => rfl
      | some j =>
        rw [hp] at h
        cases j with
        | obj fields =>
          cases hf : fields.find? (fun f => f.1 == "message") with
          | none =>
            have hany : fields.any (fun f => f.1 == "message") = false := any_of_find?_none hf
            simp [pyContains, hany, hf]
          | some f =>
            have hany := any_of_find?_some hf
            cases hf2 : f.2 with
            | obj mf =>
              cases hg : mf.find? (fun f => f.1 == "content") with
              | none =>
                have hany2 : mf.any (fun f => f.1 == "content") = false := any_of_find?_none hg
                simp [pyContains, pyIndexStr, hany, hany2, hf, hf2, hg]
              | some g =>
                have hany2 := any_of_find?_some hg
                simp [pyContains, pyIndexStr, hany, hany2, hf, hf2, hg]
            | null => simp [hf, hf2] at h
            | bool b => simp [hf, hf2] at h
            | num n => simp [hf, hf2] at h
            | str s => simp [hf, hf2] at h
            | arr es => simp [hf, hf2] at h
        | null => simp at h
        | bool b => simp at h
        | num n => simp at h
        | str s => simp at h
        | arr es => simp at h

theorem sseLoop_ollama_safe (lines : List RawLine) (h : ∀ l ∈ lines, lineSafe l = true) :
    sseLoop ollamaStep lines = (specContentValues lines, Outcome.completed) := by
  induction lines with
  | nil => rfl
  | cons l ls ih =>
    have hl := ollamaStep_safe l (h l (List.mem_cons_self l ls))
    have ihh := ih (fun x hx => h x (List.mem_cons_of_mem l hx))
    cases hc : specLineContent l with
    | none =>
      have e1 : sseLoop ollamaStep (l :: ls) = sseLoop ollamaStep ls := by
        simp only [sseLoop, hl, hc]
      have e2 : specContentValues (l :: ls) = specContentValues ls := by
        rw [specContentValues, specContentValues, List.filterMap_cons, hc]
      rw [e1, e2, ihh]
    | some c =>
      have e1 : sseLoop ollamaStep (l :: ls)
          = (c :: (sseLoop ollamaStep ls).1, (sseLoop ollamaStep ls).2) := by
        simp only [sseLoop, hl, hc]
      have e2 : specContentValues (l :: ls) = c :: specContentValues ls := by
        rw [specContentValues, specContentValues, List.filterMap_cons, hc]
      rw [e1, e2, ihh]

/-- Claim C2 amended: for a 200-status body every line of which is empty, non-JSON, or
a JSON object whose message value (when the key is present) is itself an object, the
yielded fragments are exactly the message.content values of the qualifying lines, in
input-line order, and the stream completes — in particular a malformed (non-JSON) line
is skipped without terminating the stream.  A line outside this class (e.g. one
parsing to a bare JSON number) instead raises an uncaught TypeError: one error
fragment is yielded and the stream terminates (see the counterexample). -/
theorem C2_amended (messages : List Msg) (sp : Option String) (lines : List RawLine)
    (h : ∀ l ∈ lines, lineSafe l = true) :
    stream_ollama_response messages sp (.resp 200 lines none)
      = (specContentValues lines, .completed) := by
  have hloop := sseLoop_ollama_safe lines h
  simp only [stream_ollama_response]
  rw [if_neg (fun hc => hc rfl), hloop]

/-- A streamed chunk carrying content "a". -/
def lineA : RawLine :=
  ⟨"\x7b\"message\":\x7b\"content\":\"a\"\x7d\x7d", some (.obj [("message", .obj [("content", .str "a")])])⟩

/-- A streamed chunk carrying content "b". -/
def lineB : RawLine :=
  ⟨"\x7b\"message\":\x7b\"content\":\"b\"\x7d\x7d", some (.obj [("message", .obj [("content", .str "b")])])⟩

/-- A line that does not parse as JSON. -/
def lineNotJson : RawLine := ⟨"not json", none⟩

/-- A line that parses as JSON, but as a bare number rather than an object. -/
def lineNum : RawLine := ⟨"42", some (.num 42)⟩

theorem C2_amended_witness :
    stream_ollama_response [] none (.resp 200 [lineA, lineNotJson, lineB] none)
      = ([.str "a", .str "b"], .completed) := by
  have h := C2_amended [] none [lineA, lineNotJson, lineB] (by decide)
  rw [h]
  rfl

/-- Claim C2 as stated is false: a non-empty line that parses as JSON but not as an
object — here the bare number 42 — is not simply skipped.  The membership test
`"message" in chunk` raises TypeError, which the inner handler (catching only
JSONDecodeError and KeyError) does not catch, so the outer handler yields one error
fragment and the generator ends: the "b" chunk after it is never delivered. -/
theorem C2_counterexample :
    stream_ollama_response [] none (.resp 200 [lineA, lineNum, lineB] none)
      = ([.str "a", .str "Error: argument of type \x27int\x27 is not iterable"], .failed)
    ∧ specContentValues [lineA, lineNum, lineB] = [.str "a", .str "b"]
    ∧ (stream_ollama_response [] none (.resp 200 [lineA, lineNum, lineB] none)).1
        ≠ specContentValues [lineA, lineNum, lineB] := by
  refine ⟨rfl, rfl, ?_⟩
  have h1 : (stream_ollama_response [] none (.resp 200 [lineA, lineNum, lineB] none)).1
      = [.str "a", .str "Error: argument of type \x27int\x27 is not iterable"] := rfl
  have h2 : specContentValues [lineA, lineNum, lineB] = [.str "a", .str "b"] := rfl
  rw [h1, h2]
  simp

theorem C4_amended_witness :
    Json.str "" ∉ (stream_chatgpt_response [] "k" none (.run [some "hi", some "", none] none)).1 :=
  (C4_amended [] "k" none [some "hi", some "", none] none).1
